import Mathlib

/-
Verification development for the calculator-agent repository.

The Python sources are shallowly embedded:
  * Python numbers (int / float) become `PyNum`; float arithmetic is modelled
    exactly over `ℚ` (every value arising in this development is a small dyadic
    rational, represented exactly by an IEEE double, so the model agrees with
    the code on all inputs considered here).
  * `src/tools/calculator.py::calculate` becomes `calculate`.
  * `src/agents/utility.py::validate_expression`, `float_to_str`,
    `create_number_pattern` and `reduce_expression` are embedded with a small
    executable backtracking matcher for the exact regular-expression shapes the
    code builds (literals, `\s*`, `\.?`, `\b`, and the unescaped `.` of the
    loose fallback pattern).
  * the tool-call interpreters of `stepwise_agent.py` / `reducing_agent.py`
    become `execCall` / `processCalls`, over a model of `json.loads`
    restricted to the flat argument objects the agents consume
    (string keys without escape sequences, numbers without exponents,
    booleans, null; duplicate keys resolve to the last occurrence exactly as
    in Python).
  * the two `run` loops become `stepwiseRun` / `reducingRun`, with the LLM
    client replaced by a deterministic stub `ModelStub : ℕ → List ToolCall`
    mapping the turn number to that turn's tool calls (the loops never read
    the prompt text, so prompt construction is not modelled).
  * the `eval(expression)` budget-exhaustion fallback of the reducing agent
    becomes `pyEval`, a recursive-descent evaluator for the Python arithmetic
    grammar over the validated character set (`+ - * / // ** ( )`, ints and
    decimal floats; exponent literals and non-integer float powers are outside
    the model's scope, as no validated expression produced here contains them).
-/

namespace CalcAgent

/-- Kernel-computable rational addition (the library's `Rat.add` is
irreducible, so executable definitions use these `Rat.divInt`-based wrappers;
`ratAdd_eq` and friends connect them to the standard operations). -/
def ratAdd (a b : ℚ) : ℚ :=
  Rat.divInt (a.num * b.den + b.num * a.den) (a.den * b.den)

/-- Kernel-computable rational subtraction. -/
def ratSub (a b : ℚ) : ℚ :=
  Rat.divInt (a.num * b.den - b.num * a.den) (a.den * b.den)

/-- Kernel-computable rational multiplication. -/
def ratMul (a b : ℚ) : ℚ :=
  Rat.divInt (a.num * b.num) (a.den * b.den)

/-- Kernel-computable rational division (0 on a zero divisor, matching the
library's convention; callers guard the zero case). -/
def ratDiv (a b : ℚ) : ℚ :=
  Rat.divInt (a.num * b.den) (a.den * b.num)

/-- Kernel-computable rational power. -/
def ratPowNat (q : ℚ) : ℕ → ℚ
  | 0 => 1
  | n + 1 => ratMul q (ratPowNat q n)

/-- Model of a Python number: `int` or `float`.  Floats are represented
exactly as rationals. -/
inductive PyNum where
  | i (n : ℤ)
  | f (q : ℚ)
deriving Repr, DecidableEq

/-- Numeric value of a Python number. -/
def PyNum.val : PyNum → ℚ
  | .i n => n
  | .f q => q

/-- Python `a + b`: int stays int only when both operands are ints. -/
def pyAdd : PyNum → PyNum → PyNum
  | .i m, .i n => .i (m + n)
  | a, b => .f (ratAdd a.val b.val)

/-- Python `a - b`. -/
def pySub : PyNum → PyNum → PyNum
  | .i m, .i n => .i (m - n)
  | a, b => .f (ratSub a.val b.val)

/-- Python `a * b`. -/
def pyMul : PyNum → PyNum → PyNum
  | .i m, .i n => .i (m * n)
  | a, b => .f (ratMul a.val b.val)

/-- Python unary minus. -/
def pyNeg : PyNum → PyNum
  | .i n => .i (-n)
  | .f q => .f (-q)

/-- JSON values as produced by `json.loads` on the tool-call payloads
(restricted to the scalar types the agents consume). -/
inductive Json where
  | num (v : PyNum)
  | str (s : String)
  | bool (b : Bool)
  | null
deriving Repr, DecidableEq

/-- Error taxonomy of the embedded code.  Each constructor corresponds to a
distinct Python exception site:
`tooLong` / `invalidChars` – `validate_expression`;
`noToolCall` – empty tool-call list;
`malformed` – the `RuntimeError` raised after the failed repair pass
(carrying the raw payload);
`unsupported` – the calculator's `ValueError` (carrying the stripped op);
`divByZero` – the calculator's `ZeroDivisionError` (carrying the numerator);
`attrError` – `op.strip()` on a non-string (AttributeError);
`typeError` – arithmetic on non-numeric operands;
`indexError` – `results[-1]` on an empty list;
`maxCalls` – the `RuntimeError` on budget exhaustion. -/
inductive AgentErr where
  | tooLong
  | invalidChars
  | noToolCall
  | malformed (raw : String)
  | unsupported (op : String)
  | divByZero (numerator : Json)
  | attrError
  | typeError
  | indexError
  | maxCalls
deriving Repr, DecidableEq

/-- Characters treated as whitespace by Python's `str.strip` / regex `\s`
(ASCII scope; the grammar admits no other whitespace). -/
def pySpace (c : Char) : Bool :=
  c = ' ' ∨ c = '\t' ∨ c = '\n' ∨ c = '\r' ∨ c = '\x0b' ∨ c = '\x0c'

/-- Python `str.strip()`. -/
def pyStrip (s : String) : String :=
  String.mk (((s.data.dropWhile pySpace).reverse.dropWhile pySpace).reverse)

/-- Remainder of `s` after a literal prefix `pat`, when `pat` is a prefix. -/
def afterLiteral : List Char → List Char → Option (List Char)
  | s, [] => some s
  | [], _ :: _ => none
  | c :: s2, p :: ps => if c = p then afterLiteral s2 ps else none

/-- Left-to-right non-overlapping replacement of every occurrence of `pat`
by `rep` (fuel-bounded; `pyReplace` supplies enough). -/
def replaceAll : ℕ → List Char → List Char → List Char → List Char
  | 0, s, _, _ => s
  | fuel + 1, s, pat, rep =>
    match s with
    | [] => []
    | c :: s2 =>
      match afterLiteral s pat with
      | some rest => rep ++ replaceAll fuel rest pat rep
      | none => c :: replaceAll fuel s2 pat rep

/-- Model of Python `str.replace` (for a non-empty pattern). -/
def pyReplace (s pat rep : String) : String :=
  String.mk (replaceAll (s.data.length + 1) s.data pat.data rep.data)

/-- Model of Python `str.split(sep)` for a one-character separator: keeps
empty parts, as Python does. -/
def pySplitChar (sep : Char) : List Char → List (List Char)
  | [] => [[]]
  | c :: rest =>
    let r := pySplitChar sep rest
    if c = sep then [] :: r
    else
      match r with
      | h :: t => (c :: h) :: t
      | [] => [[c]]

/-- Embedding of `src/tools/calculator.py::calculate`.  The operator string is
stripped first; `/` checks `b == 0` before dividing and reports the numerator;
an unrecognised operator raises `ValueError` naming the (stripped) symbol. -/
def calculate (a b : PyNum) (op : String) : Except AgentErr PyNum :=
  if pyStrip op = "+" then .ok (pyAdd a b)
  else if pyStrip op = "-" then .ok (pySub a b)
  else if pyStrip op = "*" then .ok (pyMul a b)
  else if pyStrip op = "/" then
    if b.val = 0 then .error (.divByZero (.num a))
    else .ok (.f (ratDiv a.val b.val))
  else .error (.unsupported (pyStrip op))

/-- Codepoint ranges matched by Python's regex `\d` on `str` patterns:
every Unicode decimal digit (category Nd), enumerated from the Unicode
character database as consulted by Python 3's `re` module. -/
def reDigitRanges : List (ℕ × ℕ) :=
  [(48, 57), (1632, 1641), (1776, 1785), (1984, 1993), (2406, 2415),
   (2534, 2543), (2662, 2671), (2790, 2799), (2918, 2927), (3046, 3055),
   (3174, 3183), (3302, 3311), (3430, 3439), (3558, 3567), (3664, 3673),
   (3792, 3801), (3872, 3881), (4160, 4169), (4240, 4249), (6112, 6121),
   (6160, 6169), (6470, 6479), (6608, 6617), (6784, 6793), (6800, 6809),
   (6992, 7001), (7088, 7097), (7232, 7241), (7248, 7257), (42528, 42537),
   (43216, 43225), (43264, 43273), (43472, 43481), (43504, 43513),
   (43600, 43609), (44016, 44025), (65296, 65305), (66720, 66729),
   (68912, 68921), (69734, 69743), (69872, 69881), (69942, 69951),
   (70096, 70105), (70384, 70393), (70736, 70745), (70864, 70873),
   (71248, 71257), (71360, 71369), (71472, 71481), (71904, 71913),
   (72016, 72025), (72784, 72793), (73040, 73049), (73120, 73129),
   (92768, 92777), (92864, 92873), (93008, 93017), (120782, 120831),
   (123200, 123209), (123632, 123641), (125264, 125273), (130032, 130041)]

/-- Codepoints matched by Python's regex `\s` on `str` patterns
(Unicode whitespace, including the ASCII separators 28–31), enumerated from
Python 3's `re` module. -/
def reSpaceRanges : List (ℕ × ℕ) :=
  [(9, 13), (28, 32), (133, 133), (160, 160), (5760, 5760), (8192, 8202),
   (8232, 8233), (8239, 8239), (8287, 8287), (12288, 12288)]

/-- Python regex `\d` (Unicode-aware). -/
def reDigit (c : Char) : Bool :=
  reDigitRanges.any fun r => decide (r.1 ≤ c.toNat ∧ c.toNat ≤ r.2)

/-- Python regex `\s` (Unicode-aware). -/
def reSpace (c : Char) : Bool :=
  reSpaceRanges.any fun r => decide (r.1 ≤ c.toNat ∧ c.toNat ≤ r.2)

/-- Characters admitted by the validation pattern `^[\d\s\+\-\*\/\(\)\.]+$`:
`\d` and `\s` are Unicode-aware in Python, so the class admits every
Unicode decimal digit and every Unicode whitespace character besides the
seven literal symbols. -/
def allowedChar (c : Char) : Bool :=
  reDigit c ∨ reSpace c ∨ c = '+' ∨ c = '-' ∨ c = '*' ∨ c = '/' ∨
    c = '(' ∨ c = ')' ∨ c = '.'

/-- Embedding of `src/agents/utility.py::validate_expression`.  The length
check runs first; the anchored character-class pattern then requires a
non-empty string all of whose characters are admitted. -/
def validate_expression (expression : String) (max_expression_length : ℕ) :
    Except AgentErr Bool :=
  if expression.length > max_expression_length then .error .tooLong
  else if expression.data ≠ [] ∧ expression.data.all allowedChar then .ok true
  else .error .invalidChars

/-- Decimal digits of a fractional part `0 ≤ q < 1` (fuel-bounded; every
value in this development has a short exact decimal expansion). -/
def fracDigits : ℕ → ℚ → List Char
  | 0, _ => []
  | fuel + 1, q =>
    if q = 0 then []
    else
      let q10 := ratMul q 10
      let d := q10.floor
      Char.ofNat (48 + d.toNat) :: fracDigits fuel (ratSub q10 (d : ℚ))

/-- Minimal decimal rendering of a rational: no trailing zeros, no decimal
point for integral values. -/
def floatDecimalStr (q : ℚ) : String :=
  let sgn := if q < 0 then "-" else ""
  let aq := |q|
  let ip := aq.floor.toNat
  let fp := ratSub aq (aq.floor : ℚ)
  sgn ++ toString ip ++ (if fp = 0 then "" else "." ++ String.mk (fracDigits 17 fp))

/-- Embedding of `utility.py::float_to_str`, i.e. `f'{f: g}'.strip()`: on the
magnitudes arising here (`< 10^6`, at most six significant digits) the `%g`
format prints the minimal decimal form, dropping a trailing `.0`. -/
def float_to_str (x : PyNum) : String :=
  floatDecimalStr x.val

/-- Python `str()` on a number: ints print plainly, floats keep a trailing
`.0` when integral. -/
def pyStr : PyNum → String
  | .i n => toString n
  | .f q => if q.den = 1 then floatDecimalStr q ++ ".0" else floatDecimalStr q

/-- Elements of the regular expressions `reduce_expression` builds:
a literal character, the wildcard `.` of the loose fallback pattern,
the optional decimal point `\.?` of a float number pattern, `\s*`,
and the word boundary `\b`. -/
inductive RElem where
  | lit (c : Char)
  | anyc
  | optDot
  | ws
  | wb
deriving Repr, DecidableEq

/-- Python regex word characters (`\w`, ASCII scope). -/
def isWordChar (c : Char) : Bool :=
  c.isAlphanum ∨ c = '_'

/-- Whether a word boundary `\b` holds between the previous character (none at
the string start) and the rest of the input. -/
def boundaryAt (prev : Option Char) (s : List Char) : Bool :=
  (match prev with | some c => isWordChar c | none => false) ≠
    (match s with | c :: _ => isWordChar c | [] => false)

/-- Backtracking matcher: tries to match the pattern at the head of `s`
(`prev` is the character just before the current position) and returns the
remainder of the input after the matched span.  Quantifiers are greedy, as in
Python's `re`.  Fuel-indexed for structural recursion: every recursive call
strictly decreases `ps.length + s.length`, so `matchHere` below supplies
exactly enough fuel and the zero case is never reached. -/
def matchAt : ℕ → List RElem → Option Char → List Char → Option (List Char)
  | 0, _, _, _ => none
  | _ + 1, [], _, s => some s
  | fuel + 1, .lit c :: ps, _, s =>
    (match s with
     | c2 :: s2 => if c2 = c then matchAt fuel ps (some c) s2 else none
     | [] => none)
  | fuel + 1, .anyc :: ps, _, s =>
    (match s with
     | c2 :: s2 => if c2 = '\n' then none else matchAt fuel ps (some c2) s2
     | [] => none)
  | fuel + 1, .optDot :: ps, prev, s =>
    (match s with
     | [] => matchAt fuel ps prev []
     | c2 :: s2 =>
       if c2 = '.' then
         (match matchAt fuel ps (some '.') s2 with
          | some r => some r
          | none => matchAt fuel ps prev (c2 :: s2))
       else matchAt fuel ps prev (c2 :: s2))
  | fuel + 1, .ws :: ps, prev, s =>
    (match s with
     | c2 :: s2 =>
       if pySpace c2 then
         (match matchAt fuel (.ws :: ps) (some c2) s2 with
          | some r => some r
          | none => matchAt fuel ps prev (c2 :: s2))
       else matchAt fuel ps prev (c2 :: s2)
     | [] => matchAt fuel ps prev [])
  | fuel + 1, .wb :: ps, prev, s =>
    if boundaryAt prev s then matchAt fuel ps prev s else none

/-- Matcher entry point with sufficient fuel. -/
def matchHere (p : List RElem) (prev : Option Char) (s : List Char) :
    Option (List Char) :=
  matchAt (p.length + s.length + 1) p prev s

/-- Model of `re.sub(pattern, repl, s, count=1)`: replace the leftmost match
with `repl`; `none` when the pattern matches nowhere (`re.search` fails). -/
def subFirst (p : List RElem) (repl : List Char) :
    Option Char → List Char → Option (List Char)
  | prev, s =>
    match matchHere p prev s with
    | some rest => some (repl ++ rest)
    | none =>
      match s with
      | [] => none
      | c :: s2 =>
        match subFirst p repl (some c) s2 with
        | some r => some (c :: r)
        | none => none

/-- Embedding of `utility.py::create_number_pattern`: ints yield
`\b str(n) \b`; floats yield the `%g` rendering with every decimal point made
optional (`\.?`), again between word boundaries. -/
def create_number_pattern : PyNum → List RElem
  | .i n => [RElem.wb] ++ (toString n).data.map RElem.lit ++ [RElem.wb]
  | .f q =>
    [RElem.wb] ++
      ((floatDecimalStr q).data.map fun c =>
        if c = '.' then RElem.optDot else RElem.lit c) ++ [RElem.wb]

/-- The parenthetical pattern of `reduce_expression`:
`\( \s* a-pattern \s* op \s* b-pattern \s* \)` with `op` escaped
(i.e. all its characters literal). -/
def parenPattern (a b : PyNum) (op : String) : List RElem :=
  [RElem.lit '('] ++ [RElem.ws] ++ create_number_pattern a ++ [RElem.ws] ++
    op.data.map RElem.lit ++ [RElem.ws] ++ create_number_pattern b ++
    [RElem.ws] ++ [RElem.lit ')']

/-- The standard pattern of `reduce_expression`:
`a-pattern \s* op \s* b-pattern`. -/
def barePattern (a b : PyNum) (op : String) : List RElem :=
  create_number_pattern a ++ [RElem.ws] ++ op.data.map RElem.lit ++
    [RElem.ws] ++ create_number_pattern b

/-- The loose fallback pattern `f"{a_str}\s*\{op}\s*{b_str}"`: the rendered
operand strings are spliced in unescaped, so their decimal points act as the
regex wildcard; the backslash before the single-character operator makes it
literal. -/
def loosePattern (a_str op b_str : String) : List RElem :=
  (a_str.data.map fun c => if c = '.' then RElem.anyc else RElem.lit c) ++
    [RElem.ws] ++ op.data.map RElem.lit ++ [RElem.ws] ++
    (b_str.data.map fun c => if c = '.' then RElem.anyc else RElem.lit c)

/-- Embedding of `utility.py::reduce_expression`.  Rule order, first match
wins: (1) when the expression contains `(` and `)` and the whole
parenthesized group matches, replace it (parentheses included) and return;
(2) otherwise replace the first bare occurrence; (3) if the string came back
unchanged, try the loose literal pattern; (4) otherwise return the
expression unchanged. -/
def reduce_expression (expression : String) (a b : PyNum) (op : String)
    (result : PyNum) : String :=
  let a_str := float_to_str a
  let b_str := float_to_str b
  let result_str := float_to_str result
  let e := expression.data
  let parenAttempt : Option (List Char) :=
    if e.contains '(' && e.contains ')' then
      subFirst (parenPattern a b op) result_str.data none e
    else none
  match parenAttempt with
  | some e2 => String.mk e2
  | none =>
    let e2 := (subFirst (barePattern a b op) result_str.data none e).getD e
    if e2 = e then
      String.mk ((subFirst (loosePattern a_str op b_str) result_str.data none e).getD e)
    else String.mk e2

/-- JSON whitespace accepted between tokens by `json.loads`. -/
def jsonWs (c : Char) : Bool :=
  c = ' ' ∨ c = '\t' ∨ c = '\n' ∨ c = '\r'

/-- Body of a JSON string after the opening quote: plain characters up to the
closing quote (escape sequences are outside the model's scope — no payload in
this development contains a backslash). -/
def parseJString : List Char → Option (List Char × List Char)
  | [] => none
  | c :: rest =>
    if c = '"' then some ([], rest)
    else if c = '\\' then none
    else
      match parseJString rest with
      | some (s, r) => some (c :: s, r)
      | none => none

/-- Numeric value of a digit list. -/
def digitsToNat (l : List Char) : ℕ :=
  l.foldl (fun a c => a * 10 + (c.toNat - 48)) 0

/-- Value of a decimal literal with integer part `ip`, fraction digits value
`fp` over `k` digits: `(ip * 10^k + fp) / 10^k`. -/
def decimalRat (ip fp k : ℕ) : ℚ :=
  Rat.divInt (ip * 10 ^ k + fp) (10 ^ k)

/-- JSON number (exponent-free scope): optional minus, integer digits without
a redundant leading zero, optional fraction; an integer literal yields a
Python int, a fractional one a float — exactly `json.loads`' behaviour. -/
def parseJNumber (l : List Char) : Option (Json × List Char) :=
  let neg := match l with | '-' :: _ => true | _ => false
  let l1 := match l with | '-' :: r => r | _ => l
  let intD := l1.takeWhile Char.isDigit
  let l2 := l1.dropWhile Char.isDigit
  if intD = [] then none
  else if intD.length > 1 ∧ intD.headD '0' = '0' then none
  else
    match l2 with
    | '.' :: l3 =>
      let fracD := l3.takeWhile Char.isDigit
      let l4 := l3.dropWhile Char.isDigit
      if fracD = [] then none
      else
        let mag : ℚ := decimalRat (digitsToNat intD) (digitsToNat fracD) fracD.length
        some (.num (.f (if neg then Rat.neg mag else mag)), l4)
    | _ =>
      let mag : ℤ := digitsToNat intD
      some (.num (.i (if neg then -mag else mag)), l2)

/-- One JSON scalar value. -/
def parseJValue (l : List Char) : Option (Json × List Char) :=
  match l with
  | 't' :: 'r' :: 'u' :: 'e' :: r => some (.bool true, r)
  | 'f' :: 'a' :: 'l' :: 's' :: 'e' :: r => some (.bool false, r)
  | 'n' :: 'u' :: 'l' :: 'l' :: r => some (.null, r)
  | '"' :: r =>
    match parseJString r with
    | some (s, r2) => some (.str (String.mk s), r2)
    | none => none
  | _ => parseJNumber l

/-- Comma-separated `"key": value` entries of a flat object; returns the
entry list and the remainder (whitespace after the last entry consumed). -/
def parseJEntries : ℕ → List Char → Option (List (String × Json) × List Char)
  | 0, _ => none
  | fuel + 1, l =>
    match (l.dropWhile jsonWs) with
    | '"' :: r =>
      match parseJString r with
      | none => none
      | some (k, r2) =>
        match (r2.dropWhile jsonWs) with
        | ':' :: r4 =>
          match parseJValue (r4.dropWhile jsonWs) with
          | none => none
          | some (v, r5) =>
            match (r5.dropWhile jsonWs) with
            | ',' :: r7 =>
              (match parseJEntries fuel r7 with
               | some (kvs, r8) => some ((String.mk k, v) :: kvs, r8)
               | none => none)
            | r6 => some ([(String.mk k, v)], r6)
        | _ => none
    | _ => none

/-- Model of `json.loads` on the flat argument objects the agents consume:
a top-level object of scalar entries, nothing after the closing brace. -/
def jsonParseObj (raw : String) : Option (List (String × Json)) :=
  match (raw.data.dropWhile jsonWs) with
  | c :: r =>
    if c = Char.ofNat 123 then
      match (r.dropWhile jsonWs) with
      | c2 :: r2 =>
        if c2 = Char.ofNat 125 then
          (if r2.dropWhile jsonWs = [] then some [] else none)
        else
          match parseJEntries (r.length + 1) r with
          | some (kvs, rest) =>
            (match rest with
             | c3 :: r3 =>
               if c3 = Char.ofNat 125 ∧ r3.dropWhile jsonWs = [] then some kvs
               else none
             | [] => none)
          | none => none
      | [] => none
    else none
  | [] => none

/-- Python dict lookup on the entry list built by `json.loads`: a duplicated
key resolves to its last occurrence. -/
def lookupKey (obj : List (String × Json)) (k : String) : Option Json :=
  match ((obj.filter (fun kv => kv.1 = k)).getLast?) with
  | some kv => some kv.2
  | none => none

/-- Python `k in dict`. -/
def hasKey (obj : List (String × Json)) (k : String) : Bool :=
  obj.any (fun kv => kv.1 = k)

/-- First parsing pass of `_process_tool_calls` (identical in both agents):
parse the payload, copy `"op:"` to `"op"` when the latter is absent, extract
the four arguments, and validate that `op` is a string among `+ - * /`.
`none` covers every exception the surrounding `try` catches
(`JSONDecodeError`, `KeyError`, `ValueError`). -/
def firstPassExtract (raw : String) : Option (Json × Json × Json × Json) :=
  match jsonParseObj raw with
  | none => none
  | some obj0 =>
    let obj :=
      if hasKey obj0 "op:" ∧ ¬ hasKey obj0 "op" then
        match lookupKey obj0 "op:" with
        | some v => obj0 ++ [("op", v)]
        | none => obj0
      else obj0
    match lookupKey obj "a", lookupKey obj "b", lookupKey obj "op",
        lookupKey obj "is_final_step" with
    | some a, some b, some op, some isf =>
      match op with
      | .str s =>
        if s = "+" ∨ s = "-" ∨ s = "*" ∨ s = "/" then some (a, b, .str s, isf)
        else none
      | _ => none
    | _, _, _, _ => none

/-- Argument extraction with the single repair pass: on any first-pass
failure, textually replace `"op:"` with `"op"` in the raw payload, re-parse
and re-extract the four keys — without re-validating `op` — and raise
`MalformedArguments` when that also fails. -/
def extractArgs (raw : String) : Except AgentErr (Json × Json × Json × Json) :=
  match firstPassExtract raw with
  | some r => .ok r
  | none =>
    let fixed := pyReplace raw "op:" "op"
    match jsonParseObj fixed with
    | none => .error (.malformed raw)
    | some obj =>
      match lookupKey obj "a", lookupKey obj "b", lookupKey obj "op",
          lookupKey obj "is_final_step" with
      | some a, some b, some op, some isf => .ok (a, b, op, isf)
      | _, _, _, _ => .error (.malformed raw)

/-- Numeric view of a JSON value under Python arithmetic:
booleans are the ints 0 / 1; strings and null are not numbers. -/
def jsonAsNum : Json → Option PyNum
  | .num v => some v
  | .bool b => some (.i (if b then 1 else 0))
  | _ => none

/-- Fully processed single tool call. -/
structure ParsedCall where
  a : PyNum
  b : PyNum
  op : String
  result : PyNum
  isFinal : Json
deriving Repr, DecidableEq

/-- One tool call of a model turn: opaque id plus the raw JSON-encoded
argument string. -/
structure ToolCall where
  id : String
  arguments : String
deriving Repr, DecidableEq

/-- Processing of one tool call: extract (with repair), then call the
calculator.  A non-string `op` surviving the repair pass crashes at
`op.strip()` (AttributeError); non-numeric operands crash in the arithmetic
(TypeError), except that `/` still checks `b == 0` first. -/
def execCall (raw : String) : Except AgentErr ParsedCall :=
  match extractArgs raw with
  | .error e => .error e
  | .ok (ja, jb, jop, jisf) =>
    match jop with
    | .str s =>
      match jsonAsNum ja, jsonAsNum jb with
      | some a, some b =>
        (match calculate a b s with
         | .error e => .error e
         | .ok r => .ok ⟨a, b, s, r, jisf⟩)
      | _, _ =>
        let t := pyStrip s
        if t = "+" ∨ t = "-" ∨ t = "*" then .error .typeError
        else if t = "/" then
          (match jsonAsNum jb with
           | some b => if b.val = 0 then .error (.divByZero ja) else .error .typeError
           | none => .error .typeError)
        else .error (.unsupported t)
    | _ => .error .attrError

/-- Python truthiness, used on the `is_final_step` value. -/
def pyTruthy : Json → Bool
  | .bool b => b
  | .num v => ¬ v.val = 0
  | .str s => ¬ s = ""
  | .null => false

/-- Modelled from the spec: the `ToolCallResult` class lives in
`src/agents/tool_call_result.py`, which is not among the provided sources;
per the spec it aggregates, for one model turn, the ordered `(result, id)`
pairs, the `is_final_step` flag, the step records, and (Reducing only) the
rewritten expression — the field order matching the agents' constructor
calls `ToolCallResult(results, is_final_step, call_steps, expression)`. -/
structure ToolCallResult where
  results : List (PyNum × String)
  is_final_step : Json
  call_steps : List String
  remaining_expression : String
deriving Repr, DecidableEq

/-- Step record rendered for each processed call:
`f"{a} {op} {b} = {result}"` (the operator exactly as received). -/
def stepString (pc : ParsedCall) : String :=
  pyStr pc.a ++ " " ++ pc.op ++ " " ++ pyStr pc.b ++ " = " ++ pyStr pc.result

/-- The shared per-turn loop of `_process_tool_calls`: processes each call in
order, accumulating `(result, id)` pairs and step strings and overwriting
`is_final_step` with each call's value; in reducing mode the expression is
folded through `reduce_expression` after every call. -/
def processCalls (mode : Bool) :
    List ToolCall → String → List (PyNum × String) → Json → List String →
      Except AgentErr ToolCallResult
  | [], expr, results, isf, steps => .ok ⟨results, isf, steps, expr⟩
  | c :: rest, expr, results, _isf, steps =>
    match execCall c.arguments with
    | .error e => .error e
    | .ok pc =>
      let expr2 :=
        if mode then reduce_expression expr pc.a pc.b pc.op pc.result else expr
      processCalls mode rest expr2 (results ++ [(pc.result, c.id)]) pc.isFinal
        (steps ++ [stepString pc])

/-- Embedding of `StepwiseCalculatorAgent._process_tool_calls`
(no expression threading; the result's expression slot is `''`). -/
def processToolCallsStepwise (calls : List ToolCall) :
    Except AgentErr ToolCallResult :=
  if calls.isEmpty then .error .noToolCall
  else processCalls false calls "" [] (.bool false) []

/-- Embedding of `ReducingCalculatorAgent._process_tool_calls`. -/
def processToolCallsReducing (calls : List ToolCall) (expression : String) :
    Except AgentErr ToolCallResult :=
  if calls.isEmpty then .error .noToolCall
  else processCalls true calls expression [] (.bool false) []

/-- Unsigned part of Python's `float(str)`: digits with an optional fraction,
or a fraction alone (exponent and inf/nan literals are outside the model's
scope — no operand string here contains them). -/
def parseUnsignedFloat (l : List Char) : Option ℚ :=
  let intD := l.takeWhile Char.isDigit
  let rest := l.dropWhile Char.isDigit
  match rest with
  | [] => if intD = [] then none else some (digitsToNat intD : ℚ)
  | '.' :: rest2 =>
    let fracD := rest2.takeWhile Char.isDigit
    let rest3 := rest2.dropWhile Char.isDigit
    if rest3 ≠ [] then none
    else if intD = [] ∧ fracD = [] then none
    else some (decimalRat (digitsToNat intD) (digitsToNat fracD) fracD.length)
  | _ => none

/-- Model of Python's `float(str)` on the decimal literals occurring here:
surrounding whitespace ignored, optional sign. -/
def pyFloatParse (s : String) : Option ℚ :=
  let t := ((s.data.dropWhile pySpace).reverse.dropWhile pySpace).reverse
  match t with
  | '+' :: rest => parseUnsignedFloat rest
  | '-' :: rest =>
    (match parseUnsignedFloat rest with
     | some q => some (Rat.neg q)
     | none => none)
  | _ => parseUnsignedFloat t

/-- Total operator count `expression.count('+') + ... + expression.count('/')`
used by the reducing agent's loop detection. -/
def singleOpCount (e : List Char) : ℕ :=
  e.count '+' + e.count '-' + e.count '*' + e.count '/'

/-- Arithmetic of the single-operator fallback: the division branch is
guarded by `b != 0`, so a zero divisor leaves `final_result` unassigned
(`none`) rather than raising. -/
def opApplyFallback (op : Char) (a b : ℚ) : Option ℚ :=
  if op = '+' then some (ratAdd a b)
  else if op = '-' then some (ratSub a b)
  else if op = '*' then some (ratMul a b)
  else if op = '/' ∧ b ≠ 0 then some (ratDiv a b)
  else none

/-- One iteration of the fallback's `for op in ['+','-','*','/']` loop body:
`some r` means the agent returns `r` (which is `none` exactly when the
division-by-zero branch was skipped); `none` means this operator did not
produce a return (absent operator, split not binary, or a `float()`
exception swallowed by `except: pass`). -/
def tryOpFallback (e : String) (op : Char) : Option (Option PyNum) :=
  if op ∈ e.data then
    let parts := pySplitChar op e.data
    if parts.length = 2 then
      match pyFloatParse (pyStrip (String.mk (parts.getD 0 []))),
          pyFloatParse (pyStrip (String.mk (parts.getD 1 []))) with
      | some a, some b =>
        some (match opApplyFallback op a b with
              | some r => some (.f r)
              | none => none)
      | _, _ => none
    else none
  else none

/-- The single-operator loop-detection fallback of `ReducingCalculatorAgent.run`
(lines 76–99): fires only when the expression holds exactly one arithmetic
operator in total; `some r` means `run` returns `r` immediately. -/
def loopFallback (e : String) : Option (Option PyNum) :=
  if singleOpCount e.data = 1 then
    match tryOpFallback e '+' with
    | some r => some r
    | none =>
      match tryOpFallback e '-' with
      | some r => some r
      | none =>
        match tryOpFallback e '*' with
        | some r => some r
        | none => tryOpFallback e '/'
  else none

/-- Tokens of the Python arithmetic grammar reachable from the validated
character set. -/
inductive Tok where
  | num (v : PyNum)
  | add
  | sub
  | mul
  | div
  | floordiv
  | pow
  | lp
  | rp
deriving Repr, DecidableEq

/-- Numeric literal at the head of the input: Python forbids redundant
leading zeros on int literals but not on float literals. -/
def lexNumber (l : List Char) : Option (PyNum × List Char) :=
  let intD := l.takeWhile Char.isDigit
  let l2 := l.dropWhile Char.isDigit
  match l2 with
  | '.' :: l3 =>
    let fracD := l3.takeWhile Char.isDigit
    let l4 := l3.dropWhile Char.isDigit
    if intD = [] ∧ fracD = [] then none
    else some (.f (decimalRat (digitsToNat intD) (digitsToNat fracD) fracD.length), l4)
  | _ =>
    if intD = [] then none
    else if intD.length > 1 ∧ intD.headD '0' = '0' then none
    else some (.i (digitsToNat intD : ℤ), l2)

/-- Tokenizer for `eval` on the arithmetic fragment: recognises `**` and `//`
as single tokens, skips whitespace, rejects anything else. -/
def tokenize : ℕ → List Char → Option (List Tok)
  | 0, _ => none
  | _ + 1, [] => some []
  | fuel + 1, c :: rest =>
    if pySpace c then tokenize fuel rest
    else if c = '*' then
      match rest with
      | '*' :: r2 =>
        (match tokenize fuel r2 with
         | some ts => some (.pow :: ts)
         | none => none)
      | _ =>
        (match tokenize fuel rest with
         | some ts => some (.mul :: ts)
         | none => none)
    else if c = '/' then
      match rest with
      | '/' :: r2 =>
        (match tokenize fuel r2 with
         | some ts => some (.floordiv :: ts)
         | none => none)
      | _ =>
        (match tokenize fuel rest with
         | some ts => some (.div :: ts)
         | none => none)
    else if c = '+' then
      (match tokenize fuel rest with
       | some ts => some (.add :: ts)
       | none => none)
    else if c = '-' then
      (match tokenize fuel rest with
       | some ts => some (.sub :: ts)
       | none => none)
    else if c = '(' then
      (match tokenize fuel rest with
       | some ts => some (.lp :: ts)
       | none => none)
    else if c = ')' then
      (match tokenize fuel rest with
       | some ts => some (.rp :: ts)
       | none => none)
    else if c.isDigit ∨ c = '.' then
      match lexNumber (c :: rest) with
      | some (v, r2) =>
        (match tokenize fuel r2 with
         | some ts => some (.num v :: ts)
         | none => none)
      | none => none
    else none

/-- Python true division: always a float, `ZeroDivisionError` on 0. -/
def pyDiv (x y : PyNum) : Option PyNum :=
  if y.val = 0 then none else some (.f (ratDiv x.val y.val))

/-- Python floor division: int when both operands are ints. -/
def pyFloorDiv (x y : PyNum) : Option PyNum :=
  if y.val = 0 then none
  else
    match x, y with
    | .i m, .i n => some (.i ((ratDiv (m : ℚ) (n : ℚ)).floor))
    | _, _ => some (.f (((ratDiv x.val y.val).floor : ℤ)))

/-- Python `**` restricted to integer-valued exponents (a non-integer float
exponent means a real power, outside the rational model; no expression here
produces one).  A float exponent makes the result a float; a negative
exponent makes it a float and raises on base 0. -/
def pyPow (x y : PyNum) : Option PyNum :=
  match y with
  | .i n =>
    if 0 ≤ n then
      match x with
      | .i m => some (.i (m ^ n.toNat))
      | .f q => some (.f (ratPowNat q n.toNat))
    else if x.val = 0 then none
    else some (.f (ratDiv 1 (ratPowNat x.val n.natAbs)))
  | .f q =>
    if q.den = 1 then
      if 0 ≤ q.num then some (.f (ratPowNat x.val q.num.toNat))
      else if x.val = 0 then none
      else some (.f (ratDiv 1 (ratPowNat x.val q.num.natAbs)))
    else none

/-- Parsing levels of the recursive-descent evaluator, mirroring Python's
grammar: additive < multiplicative < unary < power < atom. -/
inductive PLevel where
  | expr
  | term
  | unary
  | power
  | atom
deriving Repr, DecidableEq

/-- Left-associative chain: repeatedly consume an operator recognised by
`pick` followed by an operand parsed by `step`. -/
def chainL (step : List Tok → Option (PyNum × List Tok))
    (pick : Tok → Option (PyNum → PyNum → Option PyNum)) :
    ℕ → PyNum → List Tok → Option (PyNum × List Tok)
  | 0, _, _ => none
  | fuel + 1, v, ts =>
    match ts with
    | [] => some (v, [])
    | t :: r =>
      match pick t with
      | some opf =>
        (match step r with
         | some (w, r2) =>
           (match opf v w with
            | some vw => chainL step pick fuel vw r2
            | none => none)
         | none => none)
      | none => some (v, t :: r)

/-- Additive operators. -/
def pickAdd : Tok → Option (PyNum → PyNum → Option PyNum)
  | .add => some (fun a b => some (pyAdd a b))
  | .sub => some (fun a b => some (pySub a b))
  | _ => none

/-- Multiplicative operators. -/
def pickMul : Tok → Option (PyNum → PyNum → Option PyNum)
  | .mul => some (fun a b => some (pyMul a b))
  | .div => some pyDiv
  | .floordiv => some pyFloorDiv
  | _ => none

/-- Recursive-descent parser-evaluator for the arithmetic fragment of
Python's `eval` (fuel-bounded; `pyEval` supplies ample fuel). -/
def parseL : ℕ → PLevel → List Tok → Option (PyNum × List Tok)
  | 0, _, _ => none
  | fuel + 1, .atom, ts =>
    (match ts with
     | .num v :: r => some (v, r)
     | .lp :: r =>
       (match parseL fuel .expr r with
        | some (v, .rp :: r2) => some (v, r2)
        | _ => none)
     | _ => none)
  | fuel + 1, .power, ts =>
    (match parseL fuel .atom ts with
     | some (v, .pow :: r) =>
       (match parseL fuel .unary r with
        | some (w, r2) =>
          (match pyPow v w with
           | some vw => some (vw, r2)
           | none => none)
        | none => none)
     | some (v, r) => some (v, r)
     | none => none)
  | fuel + 1, .unary, ts =>
    (match ts with
     | .add :: r => parseL fuel .unary r
     | .sub :: r =>
       (match parseL fuel .unary r with
        | some (v, r2) => some (pyNeg v, r2)
        | none => none)
     | _ => parseL fuel .power ts)
  | fuel + 1, .term, ts =>
    (match parseL fuel .unary ts with
     | some (v, r) => chainL (parseL fuel .unary) pickMul (fuel + 1) v r
     | none => none)
  | fuel + 1, .expr, ts =>
    (match parseL fuel .term ts with
     | some (v, r) => chainL (parseL fuel .term) pickAdd (fuel + 1) v r
     | none => none)

/-- Model of `eval(expression)` on the arithmetic fragment: `some v` when
Python evaluates the expression to the number `v`, `none` when it raises
(syntax error, division by zero, …). -/
def pyEval (s : String) : Option PyNum :=
  match tokenize (s.data.length + 1) s.data with
  | none => none
  | some ts =>
    match parseL (4 * ts.length + 8) .expr ts with
    | some (v, []) => some v
    | _ => none

/-- Deterministic model stub: maps the turn number (starting at 1) to that
turn's tool calls.  The agents never read the prompt text, so this captures
the whole model boundary. -/
def ModelStub : Type := ℕ → List ToolCall

/-- Value returned on a final step: `result.results[-1][0]`
(an `IndexError` is unreachable, since a successful turn has at least one
result). -/
def lastResult (r : ToolCallResult) : Except AgentErr (Option PyNum) :=
  match r.results.getLast? with
  | some p => .ok (some p.1)
  | none => .error .indexError

/-- Main loop of `StepwiseCalculatorAgent.run`: process the turn, return the
last result when final, otherwise raise `MaxCallsExceeded` once `i`
reaches the budget.  `fuel` only bounds the recursion; with `fuel = maxCalls`
its zero case is unreachable. -/
def stepwiseLoop (model : ModelStub) (maxCalls : ℕ) :
    ℕ → ℕ → Except AgentErr (Option PyNum)
  | fuel, i =>
    match processToolCallsStepwise (model i) with
    | .error e => .error e
    | .ok r =>
      if pyTruthy r.is_final_step then lastResult r
      else if maxCalls ≤ i then .error .maxCalls
      else
        match fuel with
        | 0 => .error .maxCalls
        | fuel2 + 1 => stepwiseLoop model maxCalls fuel2 (i + 1)

/-- Embedding of `StepwiseCalculatorAgent.run`: validate, then loop with no
fallback of any kind on budget exhaustion. -/
def stepwiseRun (model : ModelStub) (maxLen maxCalls : ℕ) (expression : String) :
    Except AgentErr (Option PyNum) :=
  match validate_expression expression maxLen with
  | .error e => .error e
  | .ok _ => stepwiseLoop model maxCalls maxCalls 1

/-- Main loop of `ReducingCalculatorAgent.run`: process the turn threading
the expression, run loop detection (returning whatever the single-operator
fallback returns when it fires), record the expression as seen, return on a
final step, and on budget exhaustion fall back to one direct `eval` of the
current expression before raising `MaxCallsExceeded`. -/
def reducingLoop (model : ModelStub) (maxCalls : ℕ) :
    ℕ → ℕ → String → List String → Except AgentErr (Option PyNum)
  | fuel, i, expr, prev =>
    match processToolCallsReducing (model i) expr with
    | .error e => .error e
    | .ok r =>
      let expr2 := r.remaining_expression
      let detected : Option (Option PyNum) :=
        if expr2 ∈ prev then loopFallback expr2 else none
      match detected with
      | some res => .ok res
      | none =>
        if pyTruthy r.is_final_step then lastResult r
        else if maxCalls ≤ i then
          match pyEval expr2 with
          | some v => .ok (some v)
          | none => .error .maxCalls
        else
          match fuel with
          | 0 => .error .maxCalls
          | fuel2 + 1 => reducingLoop model maxCalls fuel2 (i + 1) expr2 (expr2 :: prev)

/-- Embedding of `ReducingCalculatorAgent.run`: validate, seed the seen-set
with the input expression, and loop. -/
def reducingRun (model : ModelStub) (maxLen maxCalls : ℕ) (expression : String) :
    Except AgentErr (Option PyNum) :=
  match validate_expression expression maxLen with
  | .error e => .error e
  | .ok _ => reducingLoop model maxCalls maxCalls 1 expression [expression]

/-- Payload `{"a": 5, "b": 3, "op": "*", "is_final_step": false}`. -/
def pMul53 : String :=
  "\x7b\"a\": 5, \"b\": 3, \"op\": \"*\", \"is_final_step\": false\x7d"

/-- Payload `{"a": 8, "b": 2, "op": "/", "is_final_step": false}`. -/
def pDiv82 : String :=
  "\x7b\"a\": 8, \"b\": 2, \"op\": \"/\", \"is_final_step\": false\x7d"

/-- Payload `{"a": 10, "b": 15, "op": "+", "is_final_step": false}`. -/
def pAdd1015 : String :=
  "\x7b\"a\": 10, \"b\": 15, \"op\": \"+\", \"is_final_step\": false\x7d"

/-- Payload `{"a": 25, "b": 4, "op": "-", "is_final_step": true}`. -/
def pSub254 : String :=
  "\x7b\"a\": 25, \"b\": 4, \"op\": \"-\", \"is_final_step\": true\x7d"

/-- Model stub emitting the round-trip tool-call sequence
`(5,3,'*',false)`, `(8,2,'/',false)`, `(10,15,'+',false)`, `(25,4,'-',true)`,
one call per turn. -/
def roundTripStub : ModelStub := fun i =>
  if i = 1 then [⟨"t1", pMul53⟩]
  else if i = 2 then [⟨"t2", pDiv82⟩]
  else if i = 3 then [⟨"t3", pAdd1015⟩]
  else if i = 4 then [⟨"t4", pSub254⟩]
  else []

/-- Payload `{"a": 1, "b": 1, "op": "*", "is_final_step": false}`: a valid
call whose reduction never matches (no `1` in the expressions it is used
with), simulating a non-shrinking reducer. -/
def pNoOp : String :=
  "\x7b\"a\": 1, \"b\": 1, \"op\": \"*\", \"is_final_step\": false\x7d"

/-- Model stub that repeats the non-shrinking call forever and never signals
a final step. -/
def noOpStub : ModelStub := fun _ => [⟨"n1", pNoOp⟩]

/-- Model stub emitting the non-shrinking call on turn 1 and an empty call
list (which would raise `NoToolCall`) on every later turn, so a successful
run proves no further model call was made. -/
def oneTurnNoOpStub : ModelStub := fun i =>
  if i = 1 then [⟨"n1", pNoOp⟩] else []

/-- Payload `{"a": 7, "b": 2, "op": "%", "is_final_step": false}`: parses,
but `%` fails the first-pass operator validation; the textual repair changes
nothing (the raw text does not contain `op:`), re-extraction succeeds, and
the unvalidated `%` flows on to the calculator. -/
def pPctOp : String :=
  "\x7b\"a\": 7, \"b\": 2, \"op\": \"%\", \"is_final_step\": false\x7d"

/-- Payload `{"a": 7, "b": 2, "op:": 9, "is_final_step": false}`: the
dict-level key fix copies 9 into `op`, the string check fails, the textual
repair turns the key `"op:"` into `"op"`, re-extraction succeeds without
re-validation, and the non-string op crashes at `op.strip()`. -/
def pOpColonNine : String :=
  "\x7b\"a\": 7, \"b\": 2, \"op:\": 9, \"is_final_step\": false\x7d"

/-- Payload `{"a": 1, "b": 2}`: keys missing in both passes. -/
def pMissingKeys : String := "\x7b\"a\": 1, \"b\": 2\x7d"

/-- Payload `{"a": 4, "b": 5, "op": "%", "op:": "+", "is_final_step": false}`:
the first pass sees the invalid `%` (no dict fix, `op` being present); the
textual repair rewrites the key `"op:"` to `"op"`, and the duplicate-key
last-wins rule of `json.loads` makes the repaired `op` the valid `+`. -/
def pDupOpKeys : String :=
  "\x7b\"a\": 4, \"b\": 5, \"op\": \"%\", \"op:\": \"+\", \"is_final_step\": false\x7d"

/-- Payload `{"a": 1, "b": 2, "op:": "+", "is_final_step": true}`: the
documented key typo, silently repaired by the dict-level fix of the first
pass. -/
def pTypoOpKey : String :=
  "\x7b\"a\": 1, \"b\": 2, \"op:\": \"+\", \"is_final_step\": true\x7d"

/-- Payload `{"a": 1, "b": 1, "op": "+", "is_final_step": true}`. -/
def pFinalTrue : String :=
  "\x7b\"a\": 1, \"b\": 1, \"op\": \"+\", \"is_final_step\": true\x7d"

/-- Payload `{"a": 1, "b": 1, "op": "+", "is_final_step": false}`. -/
def pFinalFalse : String :=
  "\x7b\"a\": 1, \"b\": 1, \"op\": \"+\", \"is_final_step\": false\x7d"

/-- Payload `{"a": 2, "b": 3, "op": "+", "is_final_step": false}`. -/
def pAdd23 : String :=
  "\x7b\"a\": 2, \"b\": 3, \"op\": \"+\", \"is_final_step\": false\x7d"

/-- Model stub that emits `(2,3,'+',false)` every turn, never final. -/
def addOnceStub : ModelStub := fun _ => [⟨"w1", pAdd23⟩]

/-- C1: for the input expression `"10 + 5 * 3 - 8 / 2"` and the model stub
emitting `(5,3,'*',false)`, `(8,2,'/',false)`, `(10,15,'+',false)`,
`(25,4,'-',true)` one call per turn, both agents' `run` terminate normally
with final result 21 (a Python int, since the last step is `25 - 4`). -/
theorem C1_round_trip :
    stepwiseRun roundTripStub 100 10 "10 + 5 * 3 - 8 / 2" =
      .ok (some (PyNum.i 21)) ∧
    reducingRun roundTripStub 100 10 "10 + 5 * 3 - 8 / 2" =
      .ok (some (PyNum.i 21)) := by
  exact ⟨rfl, rfl⟩

theorem ratAdd_eq (a b : ℚ) : ratAdd a b = a + b := by
  have ha : (a.den : ℚ) ≠ 0 := Nat.cast_ne_zero.mpr a.den_nz
  have hb : (b.den : ℚ) ≠ 0 := Nat.cast_ne_zero.mpr b.den_nz
  conv_rhs => rw [← Rat.num_div_den a, ← Rat.num_div_den b]
  rw [ratAdd, Rat.divInt_eq_div, div_add_div _ _ ha hb]
  push_cast
  ring_nf

theorem ratSub_eq (a b : ℚ) : ratSub a b = a - b := by
  have ha : (a.den : ℚ) ≠ 0 := Nat.cast_ne_zero.mpr a.den_nz
  have hb : (b.den : ℚ) ≠ 0 := Nat.cast_ne_zero.mpr b.den_nz
  conv_rhs => rw [← Rat.num_div_den a, ← Rat.num_div_den b]
  rw [ratSub, Rat.divInt_eq_div, div_sub_div _ _ ha hb]
  push_cast
  ring_nf

theorem ratMul_eq (a b : ℚ) : ratMul a b = a * b := by
  have ha : (a.den : ℚ) ≠ 0 := Nat.cast_ne_zero.mpr a.den_nz
  have hb : (b.den : ℚ) ≠ 0 := Nat.cast_ne_zero.mpr b.den_nz
  conv_rhs => rw [← Rat.num_div_den a, ← Rat.num_div_den b]
  rw [ratMul, Rat.divInt_eq_div, div_mul_div_comm]
  push_cast
  ring_nf

theorem ratDiv_eq (a b : ℚ) : ratDiv a b = a / b := by
  by_cases hb0 : b = 0
  · subst hb0
    simp [ratDiv, Rat.divInt_eq_div]
  · have ha : (a.den : ℚ) ≠ 0 := Nat.cast_ne_zero.mpr a.den_nz
    have hbd : (b.den : ℚ) ≠ 0 := Nat.cast_ne_zero.mpr b.den_nz
    have hbn : (b.num : ℚ) ≠ 0 := by
      exact_mod_cast Rat.num_ne_zero.mpr hb0
    conv_rhs => rw [← Rat.num_div_den a, ← Rat.num_div_den b]
    rw [ratDiv, Rat.divInt_eq_div]
    push_cast
    field_simp

/-- Evaluation of `calculate` at the literal operator `"/"`. -/
theorem calculate_div (a b : PyNum) :
    calculate a b "/" =
      if b.val = 0 then .error (.divByZero (.num a))
      else .ok (.f (ratDiv a.val b.val)) := rfl

/-- C6: `calculate(a, b, '/')` fails with `DivisionByZero` carrying the
numerator iff `b == 0`, and otherwise returns the float quotient `a / b`;
after stripping whitespace, `+`, `-`, `*` give the standard arithmetic
result; any other (stripped) operator fails with `UnsupportedOperation`
naming the offending symbol. -/
theorem C6_calculate_contract (a b : PyNum) (op : String) :
    (calculate a b "/" = .error (.divByZero (.num a)) ↔ b.val = 0)
  ∧ (¬ b.val = 0 → calculate a b "/" = .ok (.f (a.val / b.val)))
  ∧ (pyStrip op = "+" →
      calculate a b op = .ok (pyAdd a b) ∧ (pyAdd a b).val = a.val + b.val)
  ∧ (pyStrip op = "-" →
      calculate a b op = .ok (pySub a b) ∧ (pySub a b).val = a.val - b.val)
  ∧ (pyStrip op = "*" →
      calculate a b op = .ok (pyMul a b) ∧ (pyMul a b).val = a.val * b.val)
  ∧ (pyStrip op ≠ "+" → pyStrip op ≠ "-" → pyStrip op ≠ "*" →
      pyStrip op ≠ "/" →
      calculate a b op = .error (.unsupported (pyStrip op))) := by
  refine ⟨?_, ?_, ?_, ?_, ?_, ?_⟩
  · by_cases hb : b.val = 0 <;> simp [calculate_div, hb]
  · intro hb
    rw [calculate_div, if_neg hb, ratDiv_eq]
  · intro h
    refine ⟨?_, ?_⟩
    · unfold calculate
      rw [h]
      simp
    · cases a <;> cases b <;> simp [pyAdd, PyNum.val, ratAdd_eq]
  · intro h
    refine ⟨?_, ?_⟩
    · unfold calculate
      rw [h]
      simp
    · cases a <;> cases b <;> simp [pySub, PyNum.val, ratSub_eq]
  · intro h
    refine ⟨?_, ?_⟩
    · unfold calculate
      rw [h]
      simp
    · cases a <;> cases b <;> simp [pyMul, PyNum.val, ratMul_eq]
  · intro h1 h2 h3 h4
    unfold calculate
    rw [if_neg h1, if_neg h2, if_neg h3, if_neg h4]

/-- Witness for C6 at concrete inputs: `1 / 0` raises `DivisionByZero`
carrying the numerator 1, and the padded operator `" + "` is stripped and
computes `2 + 3 = 5`. -/
theorem C6_witness :
    calculate (.i 1) (.i 0) "/" = .error (.divByZero (.num (.i 1))) ∧
    calculate (.i 2) (.i 3) " + " = .ok (.i 5) :=
  ⟨(C6_calculate_contract (.i 1) (.i 0) "x").1.mpr (by decide),
   (C6_calculate_contract (.i 2) (.i 3) " + ").2.2.1 (by decide) |>.1⟩

/-- C7 (amended): the length check runs first (`ExpressionTooLong` whenever
the length exceeds the bound); a NON-EMPTY expression whose characters all
lie in the validator's class — which is Unicode-aware, admitting every
Unicode decimal digit and whitespace character besides `+ - * / ( ) .` —
validates to true; otherwise — a character outside that class anywhere, or
the empty string, which the `+`-quantified anchored pattern rejects —
validation fails with `InvalidCharacters`.  Balanced parentheses and
operator placement are not checked (any admissible-character string
passes). -/
theorem C7_validate_amended (e : String) (m : ℕ) :
    (e.length > m → validate_expression e m = .error .tooLong)
  ∧ (e.length ≤ m → e.data ≠ [] → e.data.all allowedChar = true →
      validate_expression e m = .ok true)
  ∧ (e.length ≤ m → ¬ (e.data ≠ [] ∧ e.data.all allowedChar = true) →
      validate_expression e m = .error .invalidChars) := by
  refine ⟨?_, ?_, ?_⟩
  · intro h
    rw [validate_expression, if_pos h]
  · intro h h1 h2
    rw [validate_expression, if_neg (by omega), if_pos ⟨h1, h2⟩]
  · intro h h2
    rw [validate_expression, if_neg (by omega), if_neg h2]

/-- Counterexample to C7 as stated, on both sides of the claimed class
`[0-9\s+\-*/().]`.  First, ARABIC-INDIC DIGIT THREE (codepoint 1635) is no
character of `0-9`, no whitespace and none of the seven symbols — it lies
outside the claim's class — yet validation returns true, because Python's
`\d` matches every Unicode decimal digit.  Second, every character of the
empty string vacuously lies in the class and its length is within bounds,
yet `validate_expression` raises `InvalidCharacters` (the anchored pattern
`^[...]+$` requires at least one character). -/
theorem C7_counterexample :
    validate_expression (String.mk [Char.ofNat 1635]) 5 = .ok true
  ∧ (Char.ofNat 1635).isDigit = false
  ∧ pySpace (Char.ofNat 1635) = false
  ∧ reSpace (Char.ofNat 1635) = false
  ∧ (Char.ofNat 1635) ∉ ['+', '-', '*', '/', '(', ')', '.']
  ∧ validate_expression "" 5 = .error .invalidChars
  ∧ ("" : String).data.all allowedChar = true
  ∧ ("" : String).length ≤ 5 := by
  exact ⟨rfl, rfl, rfl, rfl, by decide, rfl, rfl, by decide⟩

/-- Witness for C7 at concrete inputs: a grammar-conforming expression
validates, and one exceeding the bound fails with `ExpressionTooLong`. -/
theorem C7_witness :
    validate_expression "10 + 2" 100 = .ok true ∧
    validate_expression "10 + 2" 3 = .error .tooLong :=
  ⟨(C7_validate_amended "10 + 2" 100).2.1 (by decide) (by decide) (by decide),
   (C7_validate_amended "10 + 2" 3).1 (by decide)⟩

/-- C8: `reduce_expression` tries its rules in a fixed order with first
match winning: when the expression contains `(` and `)` and the whole
parenthesized group matches, the group including the parentheses is replaced
and the function returns immediately — in preference to any bare occurrence
(the concrete instance replaces the trailing `(1 + 2)` rather than the
leading bare `1 + 2`); otherwise the first bare occurrence is replaced; if
that leaves the string unchanged the loose `\s*`-separated literal pattern
is tried (which, lacking word boundaries, rewrites `"15 * 2"` to `"110"`
for the step `5 * 2 = 10`); and when nothing matches the expression comes
back unchanged. -/
theorem C8_rule_order :
    (∀ (e : String) (a b : PyNum) (op : String) (r : PyNum) (e2 : List Char),
      e.data.contains '(' = true → e.data.contains ')' = true →
      subFirst (parenPattern a b op) (float_to_str r).data none e.data = some e2 →
      reduce_expression e a b op r = String.mk e2)
  ∧ reduce_expression "1 + 2 + (1 + 2)" (.i 1) (.i 2) "+" (.i 3) = "1 + 2 + 3"
  ∧ reduce_expression "1 + 2 + 1 + 2" (.i 1) (.i 2) "+" (.i 3) = "3 + 1 + 2"
  ∧ reduce_expression "15 * 2" (.i 5) (.i 2) "*" (.i 10) = "110"
  ∧ reduce_expression "7 - 3" (.i 1) (.i 2) "+" (.i 3) = "7 - 3" := by
  refine ⟨?_, rfl, rfl, rfl, rfl⟩
  intro e a b op r e2 h1 h2 h3
  simp only [reduce_expression, h1, h2, Bool.and_self, if_true, h3]

/-- Witness for C8's parenthetical rule at a concrete input. -/
theorem C8_witness :
    reduce_expression "(4 + 4) - 2" (.i 4) (.i 4) "+" (.i 8) =
      String.mk ['8', ' ', '-', ' ', '2'] :=
  C8_rule_order.1 "(4 + 4) - 2" (.i 4) (.i 4) "+" (.i 8)
    ['8', ' ', '-', ' ', '2'] (by rfl) (by rfl) (by rfl)

set_option maxHeartbeats 4000000 in
/-- C9 (amended): the word boundaries of the integer number patterns do
protect a substituted token from later integer-operand reductions — for
every second step with single-digit integer operands applied to
`"15 - a2 * b2"`, the substituted token `15` is left intact — but the
protection fails for float operands: a float's pattern makes the decimal
point optional, so the pattern of `1.5` matches the token `15` itself and a
later reduction can consume it wholly (see the counterexample). -/
theorem C9_token_protection_amended :
    ∀ a2 : ℕ, a2 < 10 → ∀ b2 : ℕ, b2 < 10 →
      reduce_expression ("15 - " ++ toString a2 ++ " * " ++ toString b2)
        (.i a2) (.i b2) "*" (.i (a2 * b2)) =
      "15 - " ++ toString (a2 * b2) := by decide

/-- Witness for C9 (amended) at `a2 = 1`, `b2 = 5`: reducing `1 * 5` inside
`"15 - 1 * 5"` leaves the substituted `15` intact. -/
theorem C9_witness :
    reduce_expression "15 - 1 * 5" (.i 1) (.i 5) "*" (.i 5) = "15 - 5" :=
  C9_token_protection_amended 1 (by decide) 5 (by decide)

/-- Counterexample to C9 as stated: starting from
`"3 * 5 * 2 + 1.5 * 2"`, the step `(3,5,'*',15)` substitutes the token `15`;
the later step `(1.5,2,'*',3.0)` denotes the disjoint sub-expression
`1.5 * 2`, yet its pattern `\b1\.?5\b\s*\*\s*\b2\b` matches the
substituted `"15 * 2"` first and destroys the token: the result is
`"3 + 1.5 * 2"`, in which `15` no longer occurs (the final conjuncts show
`15` occurred before the second reduction and not after). -/
theorem C9_counterexample :
    reduce_expression "3 * 5 * 2 + 1.5 * 2" (.i 3) (.i 5) "*" (.i 15) =
      "15 * 2 + 1.5 * 2"
  ∧ reduce_expression "15 * 2 + 1.5 * 2" (.f (Rat.divInt 3 2)) (.i 2) "*"
      (.f 3) = "3 + 1.5 * 2"
  ∧ pyReplace "15 * 2 + 1.5 * 2" "15" "X" = "X * 2 + 1.5 * 2"
  ∧ pyReplace "3 + 1.5 * 2" "15" "X" = "3 + 1.5 * 2" := by
  exact ⟨rfl, rfl, rfl, rfl⟩

set_option maxHeartbeats 2000000 in
/-- C10: when the reducing agent's single-operator loop fallback fires on
`"6 / 0"` (seen twice in a row via a non-shrinking turn), the division
branch is skipped, no `DivisionByZero` is raised, and `run` returns the
still-unset `None` as the final result. -/
theorem C10_div_zero_fallback_returns_none :
    reducingRun noOpStub 100 5 "6 / 0" = .ok none ∧
    loopFallback "6 / 0" = some none := by
  exact ⟨rfl, rfl⟩


/-- C4 (amended): a payload failing first-pass parsing or validation gets
exactly one repair pass — `"op:"` textually replaced by `"op"`, the result
re-parsed and the four keys re-extracted — but the repaired `op` is NOT
re-validated: `MalformedArguments` surfaces only when the repaired payload
fails parsing or key extraction (and then no further repair is attempted);
an extractable-but-invalid op flows to the calculator, surfacing as
`UnsupportedOperation` for `"%"` and as an attribute-error crash for a
non-string op.  The last conjuncts evaluate the repair on representative
payloads, including a successful textual repair via the duplicate-key
last-wins rule and the first-pass dict-level typo fix. -/
theorem C4_repair_amended :
    (∀ raw : String,
      firstPassExtract raw = none →
      jsonParseObj (pyReplace raw "op:" "op") = none →
      extractArgs raw = .error (.malformed raw))
  ∧ (∀ (raw : String) (obj : List (String × Json)) (a b op isf : Json),
      firstPassExtract raw = none →
      jsonParseObj (pyReplace raw "op:" "op") = some obj →
      lookupKey obj "a" = some a → lookupKey obj "b" = some b →
      lookupKey obj "op" = some op → lookupKey obj "is_final_step" = some isf →
      extractArgs raw = .ok (a, b, op, isf))
  ∧ execCall pPctOp = .error (.unsupported "%")
  ∧ execCall pOpColonNine = .error .attrError
  ∧ execCall pMissingKeys = .error (.malformed pMissingKeys)
  ∧ execCall pDupOpKeys = .ok ⟨.i 4, .i 5, "+", .i 9, .bool false⟩
  ∧ execCall pTypoOpKey = .ok ⟨.i 1, .i 2, "+", .i 3, .bool true⟩ := by
  refine ⟨?_, ?_, rfl, rfl, rfl, rfl, rfl⟩
  · intro raw h1 h2
    simp only [extractArgs, h1, h2]
  · intro raw obj a b op isf h1 h2 ha hb hop hisf
    simp only [extractArgs, h1, h2, ha, hb, hop, hisf]

/-- Counterexample to C4 as stated: for the payload with `op = "%"` the
repaired arguments are not re-validated, so the interpreter does not fail
with `MalformedArguments`; the invalid operator reaches the calculator and
surfaces as `UnsupportedOperation` instead. -/
theorem C4_counterexample :
    execCall pPctOp = .error (.unsupported "%")
  ∧ AgentErr.unsupported "%" ≠ .malformed pPctOp := by
  exact ⟨rfl, by decide⟩

/-- Witness for C4 (amended): the no-re-validation branch applied to the
repaired `op: 9` payload yields the extracted-but-invalid arguments. -/
theorem C4_witness :
    extractArgs pOpColonNine =
      .ok (.num (.i 7), .num (.i 2), .num (.i 9), .bool false) :=
  C4_repair_amended.2.1 pOpColonNine
    [("a", .num (.i 7)), ("b", .num (.i 2)), ("op", .num (.i 9)),
      ("is_final_step", .bool false)]
    (.num (.i 7)) (.num (.i 2)) (.num (.i 9)) (.bool false)
    (by rfl) (by rfl) (by rfl) (by rfl) (by rfl) (by rfl)

/-- Accumulator invariant of the shared per-turn loop: a successful turn's
`is_final_step` is the initial value when no call was made, and the value
extracted from the LAST processed call otherwise. -/
theorem processCalls_isFinal_aux (mode : Bool) :
    ∀ (calls : List ToolCall) (expr : String)
      (results : List (PyNum × String)) (isf : Json) (steps : List String)
      (r : ToolCallResult),
      processCalls mode calls expr results isf steps = .ok r →
      (calls = [] → r.is_final_step = isf) ∧
      (∀ c pc, calls.getLast? = some c → execCall c.arguments = .ok pc →
        r.is_final_step = pc.isFinal) := by
  intro calls
  induction calls with
  | nil =>
    intro expr results isf steps r h
    refine ⟨fun _ => ?_, fun c pc hlast _ => ?_⟩
    · simp only [processCalls] at h
      cases h
      rfl
    · simp at hlast
  | cons c0 rest ih =>
    intro expr results isf steps r h
    simp only [processCalls] at h
    cases hec : execCall c0.arguments with
    | error err =>
      rw [hec] at h
      exact absurd h (by simp)
    | ok pc0 =>
      rw [hec] at h
      have ihh := ih _ _ _ _ _ h
      refine ⟨fun h2 => absurd h2 (by simp), fun c pc hlast hexec => ?_⟩
      cases rest with
      | nil =>
        have hc : c = c0 := by simpa using hlast.symm
        subst hc
        have hpc : pc = pc0 := by
          rw [hexec] at hec
          cases hec
          rfl
        subst hpc
        exact ihh.1 rfl
      | cons c1 rest2 =>
        rw [List.getLast?_cons_cons] at hlast
        exact ihh.2 c pc hlast hexec

/-- C5: for a turn of valid tool calls, the returned `is_final_step` is the
value of the LAST processed call, not the OR over the turn: the concrete
two-call turn — first call final, last call not — yields `false` under both
agents' interpreters. -/
theorem C5_last_call_wins :
    (∀ (mode : Bool) (calls : List ToolCall) (expr : String)
       (r : ToolCallResult) (c : ToolCall) (pc : ParsedCall),
      processCalls mode calls expr [] (.bool false) [] = .ok r →
      calls.getLast? = some c →
      execCall c.arguments = .ok pc →
      r.is_final_step = pc.isFinal)
  ∧ Except.map ToolCallResult.is_final_step
      (processToolCallsStepwise [⟨"x1", pFinalTrue⟩, ⟨"x2", pFinalFalse⟩]) =
      .ok (.bool false)
  ∧ Except.map ToolCallResult.is_final_step
      (processToolCallsReducing [⟨"x1", pFinalTrue⟩, ⟨"x2", pFinalFalse⟩]
        "1 + 1 + 1 + 1") =
      .ok (.bool false) := by
  refine ⟨?_, rfl, rfl⟩
  intro mode calls expr r c pc h hlast hexec
  exact (processCalls_isFinal_aux mode calls expr [] (.bool false) [] r h).2
    c pc hlast hexec

/-- Witness for C5 at a one-call turn whose call is not final. -/
theorem C5_witness :
    (ToolCallResult.mk [(.i 2, "y1")] (.bool false) ["1 + 1 = 2"]
      "").is_final_step = Json.bool false :=
  C5_last_call_wins.1 false [⟨"y1", pFinalFalse⟩] ""
    (ToolCallResult.mk [(.i 2, "y1")] (.bool false) ["1 + 1 = 2"] "")
    ⟨"y1", pFinalFalse⟩ ⟨.i 1, .i 1, "+", .i 2, .bool false⟩
    (by rfl) (by rfl) (by rfl)


/-- Evaluation of the fallback's per-operator attempt when the operator is
absent from the expression: the loop body is skipped. -/
theorem tryOpFallback_not_mem (e : String) (op : Char) (h : op ∉ e.data) :
    tryOpFallback e op = none := by
  rw [tryOpFallback, if_neg h]

/-- Evaluation of the fallback's per-operator attempt when the operator
occurs, the split is binary, both sides parse as floats, and the operator
branch assigns a result. -/
theorem tryOpFallback_eval (e : String) (op : Char) (qa qb v : ℚ)
    (hm : op ∈ e.data)
    (hlen : (pySplitChar op e.data).length = 2)
    (hqa : pyFloatParse (pyStrip (String.mk ((pySplitChar op e.data).getD 0 []))) = some qa)
    (hqb : pyFloatParse (pyStrip (String.mk ((pySplitChar op e.data).getD 1 []))) = some qb)
    (hv : opApplyFallback op qa qb = some v) :
    tryOpFallback e op = some (some (.f v)) := by
  rw [tryOpFallback, if_pos hm]
  simp only [hlen, if_true, hqa, hqb, hv]

/-- With exactly one arithmetic operator in the whole expression, no SECOND
operator character can occur. -/
theorem op_not_mem_of_other (e : String) (c op : Char)
    (hcount : singleOpCount e.data = 1) (hm : op ∈ e.data)
    (hcop : c ∈ ['+', '-', '*', '/']) (hoop : op ∈ ['+', '-', '*', '/'])
    (hne : c ≠ op) : c ∉ e.data := by
  intro hmem
  have h1 := List.count_pos_iff.mpr hmem
  have h2 := List.count_pos_iff.mpr hm
  unfold singleOpCount at hcount
  simp only [List.mem_cons, List.not_mem_nil, or_false] at hcop hoop
  rcases hcop with rfl | rfl | rfl | rfl <;> rcases hoop with rfl | rfl | rfl | rfl <;>
    first
      | exact hne rfl
      | omega

set_option maxHeartbeats 2000000 in
/-- C3: when the reduced expression is already in the seen-set and contains
exactly one arithmetic operator in total, the agent splits on that operator,
parses both sides as floats, computes the result directly, and returns it
immediately without a further model call (the premises — a binary split,
parsable sides, a computed branch result — are exactly what "splits on that
operator, parses both sides as numbers, computes the result" presupposes;
the skipped division-by-zero branch is the C10 case).  Concretely, an
expression stuck at `"5 + 5"` two turns in a row returns the final result
10 even though the stub would raise `NoToolCall` on any later turn. -/
theorem C3_single_op_fallback :
    (∀ (e : String) (op : Char) (qa qb v : ℚ),
      op ∈ ['+', '-', '*', '/'] →
      singleOpCount e.data = 1 →
      op ∈ e.data →
      (pySplitChar op e.data).length = 2 →
      pyFloatParse (pyStrip (String.mk ((pySplitChar op e.data).getD 0 []))) = some qa →
      pyFloatParse (pyStrip (String.mk ((pySplitChar op e.data).getD 1 []))) = some qb →
      opApplyFallback op qa qb = some v →
      loopFallback e = some (some (.f v)))
  ∧ reducingRun oneTurnNoOpStub 100 7 "5 + 5" = .ok (some (.f 10)) := by
  refine ⟨?_, rfl⟩
  intro e op qa qb v hop hcount hm hlen hqa hqb hv
  have htry : tryOpFallback e op = some (some (.f v)) :=
    tryOpFallback_eval e op qa qb v hm hlen hqa hqb hv
  have hop2 := hop
  simp only [List.mem_cons, List.not_mem_nil, or_false] at hop2
  rcases hop2 with rfl | rfl | rfl | rfl
  · simp [loopFallback, hcount, htry]
  · have h1 : tryOpFallback e '+' = none :=
      tryOpFallback_not_mem e '+'
        (op_not_mem_of_other e '+' '-' hcount hm (by decide) hop (by decide))
    simp [loopFallback, hcount, h1, htry]
  · have h1 : tryOpFallback e '+' = none :=
      tryOpFallback_not_mem e '+'
        (op_not_mem_of_other e '+' '*' hcount hm (by decide) hop (by decide))
    have h2 : tryOpFallback e '-' = none :=
      tryOpFallback_not_mem e '-'
        (op_not_mem_of_other e '-' '*' hcount hm (by decide) hop (by decide))
    simp [loopFallback, hcount, h1, h2, htry]
  · have h1 : tryOpFallback e '+' = none :=
      tryOpFallback_not_mem e '+'
        (op_not_mem_of_other e '+' '/' hcount hm (by decide) hop (by decide))
    have h2 : tryOpFallback e '-' = none :=
      tryOpFallback_not_mem e '-'
        (op_not_mem_of_other e '-' '/' hcount hm (by decide) hop (by decide))
    have h3 : tryOpFallback e '*' = none :=
      tryOpFallback_not_mem e '*'
        (op_not_mem_of_other e '*' '/' hcount hm (by decide) hop (by decide))
    simp [loopFallback, hcount, h1, h2, h3, htry]

/-- Witness for C3's general fallback at the stuck expression `"9 - 4"`. -/
theorem C3_witness :
    loopFallback "9 - 4" = some (some (PyNum.f 5)) :=
  C3_single_op_fallback.1 "9 - 4" '-' 9 4 5 (by decide) (by decide)
    (by decide) (by decide) (by rfl) (by rfl) (by decide)


/-- C2 (amended): with `max_llm_calls = 1` and a first turn of valid calls
none of which signals a final step, the Stepwise agent fails with
`MaxCallsExceeded` — no fallback of any kind — whereas the Reducing agent,
PROVIDED loop detection does not intercept first (the turn's reduced
expression differs from the original), attempts one direct evaluation of the
reduced expression: it returns the evaluator's value when that succeeds and
fails with `MaxCallsExceeded` when it does not.  (When loop detection does
intercept, the single-operator fallback's return value — possibly `None` —
replaces this behaviour; see the counterexample.) -/
theorem C2_budget_amended :
    (∀ (model : ModelStub) (maxLen : ℕ) (e : String) (r : ToolCallResult),
      validate_expression e maxLen = .ok true →
      processToolCallsStepwise (model 1) = .ok r →
      pyTruthy r.is_final_step = false →
      stepwiseRun model maxLen 1 e = .error .maxCalls)
  ∧ (∀ (model : ModelStub) (maxLen : ℕ) (e : String) (r : ToolCallResult),
      validate_expression e maxLen = .ok true →
      processToolCallsReducing (model 1) e = .ok r →
      pyTruthy r.is_final_step = false →
      r.remaining_expression ≠ e →
      (∀ v, pyEval r.remaining_expression = some v →
        reducingRun model maxLen 1 e = .ok (some v))
      ∧ (pyEval r.remaining_expression = none →
        reducingRun model maxLen 1 e = .error .maxCalls)) := by
  constructor
  · intro model maxLen e r hval hproc hfin
    simp [stepwiseRun, stepwiseLoop, hval, hproc, hfin]
  · intro model maxLen e r hval hproc hfin hne
    constructor
    · intro v hv
      simp [reducingRun, reducingLoop, hval, hproc, hfin, hne, hv]
    · intro hnone
      simp [reducingRun, reducingLoop, hval, hproc, hfin, hne, hnone]

set_option maxHeartbeats 2000000 in
/-- Counterexample to C2 as stated: on `"8 / 0"` with a non-shrinking turn,
the direct evaluation of the reduced expression fails (division by zero),
yet the Reducing agent does NOT fail with `MaxCallsExceeded`: loop detection
fires first and its single-operator fallback returns `None`. -/
theorem C2_counterexample :
    pyEval "8 / 0" = none
  ∧ reducingRun noOpStub 100 1 "8 / 0" = .ok none
  ∧ (Except.ok (none : Option PyNum) : Except AgentErr (Option PyNum)) ≠
      .error .maxCalls := by
  refine ⟨rfl, rfl, fun h => Except.noConfusion h⟩

set_option maxHeartbeats 400000 in
/-- Witness for C2 (amended) on `"2 + 3"` reduced to `"5"` by the single
non-final turn: Stepwise exhausts its budget of one call, Reducing recovers
via `eval("5") = 5`. -/
theorem C2_witness :
    stepwiseRun addOnceStub 100 1 "2 + 3" = .error .maxCalls ∧
    reducingRun addOnceStub 100 1 "2 + 3" = .ok (some (.i 5)) := by
  constructor
  · exact C2_budget_amended.1 addOnceStub 100 "2 + 3"
      (ToolCallResult.mk [(.i 5, "w1")] (.bool false) ["2 + 3 = 5"] "")
      (by rfl) (by rfl) (by rfl)
  · exact (C2_budget_amended.2 addOnceStub 100 "2 + 3"
      (ToolCallResult.mk [(.i 5, "w1")] (.bool false) ["2 + 3 = 5"] "5")
      (by rfl) (by rfl) (by rfl) (by decide)).1 (.i 5) (by rfl)

end CalcAgent
